import Mathlib

/-!
Verification of the text-document worker service against its design notes.

The development shallow-embeds the orchestration logic of the repository:

* `Worker` — `src/worker.py`: the dispatcher `process_single_message`
  (echo detection, schema validation, idempotency check, routing, terminal
  status writes) and the per-message handling of the polling loop
  `start_ultra_fast_polling_worker`.
* `TMClient` — `src/text_model_client.py`: `call_model`'s retry loop,
  `_is_retryable_error` and `_calculate_retry_delay`.
* `PDFProc` — `src/pdf_processor.py`: `ultra_fast_process_chunk`'s retry
  loop, `ultra_fast_wait` rate limiting, `merge_chunk_results`,
  `get_fallback_response`, `extract_json_only` and the all-chunks-fail
  branch of `ultra_fast_process_pdf`.

External effects (Pub/Sub acknowledge / modify-ack-deadline calls, Firestore
status writes, thread-pool submission) are recorded as explicit actions in
the order the code performs them; external results (Firestore lookups, model
API attempt outcomes) are parameters of the embedded functions.  Python
dictionary fields are `Option String` (`none` = key absent, `some ""` =
present but falsy); Python float arithmetic is modelled exactly over `ℚ`.
-/

set_option linter.unusedVariables false

namespace Worker

/-- The decoded message dictionary, restricted to the keys that
`process_single_message` (src/worker.py:760-992) inspects.  Each field is
`none` when the key is absent; `some s` when present with string value `s`
(a present non-string value is represented by a non-empty string, since the
code only tests presence and truthiness of these keys). -/
structure MessageData where
  job_id : Option String
  job_type : Option String
  document_type : Option String
  gcs_path : Option String
  filename : Option String
  analysis_type : Option String
  entity_type : Option String
  name : Option String
  status : Option String
  result : Option String
  processed_at : Option String
deriving DecidableEq

/-- Python truthiness of `message_data.get(field)`: the key must be present
with a non-empty value (`not message_data.get(field)` in the source treats a
missing key and an empty value alike). -/
def truthy : Option String → Bool
  | none => false
  | some s => s != ""

/-- Outcome of the Firestore status lookup at src/worker.py:881-898:
the job document exists with a `status` field value, the document is absent,
or the lookup raised (timeout / store unavailable). -/
inductive StatusLookup where
  | found (st : String)
  | absent
  | raised
deriving DecidableEq

/-- Result of the routed processing call at src/worker.py:915-926:
the processor returned a truthy dict carrying a `success` flag and an
optional `result` payload, returned a falsy value (`None`/empty dict),
or raised an exception. -/
inductive ProcessingOutcome where
  | ret (success : Bool) (result : Option String)
  | retNone
  | raise
deriving DecidableEq

/-- Externally visible effects of one dispatcher invocation, in program
order: a Firestore status write, routing the message to a processing
function, Pub/Sub acknowledge, or Pub/Sub `modify_ack_deadline(0)`
(negative acknowledgment). -/
inductive Action where
  | writeStatus (job_id : String) (st : String)
  | process (job_type : String) (job_id : String)
  | ack
  | nack
deriving DecidableEq

/-- Model of `job_id = message_data.get("job_id", "unknown")`, src/worker.py:778. -/
def jobIdOf (m : MessageData) : String := m.job_id.getD "unknown"

/-- Model of `job_type = message_data.get("job_type", "document")`, src/worker.py:831. -/
def jobTypeOf (m : MessageData) : String := m.job_type.getD "document"

/-- Echo-result detection, src/worker.py:807-812: the message carries
`status`, `result` and `processed_at` and lacks `document_type`. -/
def isResultMessage (m : MessageData) : Bool :=
  m.status.isSome && m.result.isSome && m.processed_at.isSome
    && !m.document_type.isSome

/-- The required-field check of schema validation, src/worker.py:833-851:
text-analysis jobs need truthy `job_id`, `analysis_type`, `entity_type`,
`name`; document jobs need truthy `job_id`, `document_type`, `gcs_path`,
`filename`. Returns `true` when no field is missing. -/
def requiredFieldsPresent (m : MessageData) : Bool :=
  if jobTypeOf m == "text_analysis" then
    [m.job_id, m.analysis_type, m.entity_type, m.name].all truthy
  else
    [m.job_id, m.document_type, m.gcs_path, m.filename].all truthy

/-- The tail of the dispatcher after all checks pass, src/worker.py:900-966:
mark the job `processing`, route by job type, then write the terminal
status and acknowledge.  `completed` requires a truthy `success` flag and a
truthy `result` payload (src/worker.py:931-947); every other outcome —
falsy result dict, falsy `success`, falsy `result` payload, or an exception
— writes `failed` then acknowledges (src/worker.py:948-966). -/
def dispatchAndFinish (job_id job_type : String)
    (outcome : ProcessingOutcome) : List Action :=
  Action.writeStatus job_id "processing" ::
  Action.process job_type job_id ::
  match outcome with
  | .ret success result =>
      if success then
        if truthy result then
          [Action.writeStatus job_id "completed", Action.ack]
        else
          [Action.writeStatus job_id "failed", Action.ack]
      else
        [Action.writeStatus job_id "failed", Action.ack]
  | .retNone => [Action.writeStatus job_id "failed", Action.ack]
  | .raise => [Action.writeStatus job_id "failed", Action.ack]

/-- Model of `process_single_message`, src/worker.py:760-992, for a decoded dict
message.  Order of checks follows the source: echo-result detection
(lines 807-827), schema validation by job type with the late echo catch
in the document branch (lines 829-879), idempotency lookup (lines 881-898,
a raised lookup falls through), then `dispatchAndFinish`.  The Firestore
status-update helper swallows its own errors (src/worker.py:354-397), and
acknowledge calls are modelled as succeeding, so control always reaches the
terminal write of the taken branch. -/
def process_single_message (m : MessageData) (lookup : StatusLookup)
    (outcome : ProcessingOutcome) : List Action :=
  let job_id := jobIdOf m
  if isResultMessage m then
    [Action.ack]
  else if !requiredFieldsPresent m then
    -- validation failed: the document branch re-checks for a stray result
    -- message (src/worker.py:855-867) before marking the job failed
    if jobTypeOf m != "text_analysis"
        && m.status.isSome && m.result.isSome then
      [Action.ack]
    else if job_id != "unknown" then
      [Action.writeStatus job_id "failed", Action.ack]
    else
      [Action.ack]
  else
    match lookup with
    | .found st =>
        if st == "completed" || st == "failed" then
          [Action.ack]
        else if st == "processing" then
          [Action.ack]
        else
          dispatchAndFinish job_id (jobTypeOf m) outcome
    | .absent => dispatchAndFinish job_id (jobTypeOf m) outcome
    | .raised => dispatchAndFinish job_id (jobTypeOf m) outcome

/-- The last status value written for job `j` in a trace (the state the
store is left in for `j`, all writes being applied in order). -/
def lastStatusOf (tr : List Action) (j : String) : Option String :=
  tr.foldl
    (fun acc a =>
      match a with
      | .writeStatus j' st => if j' == j then some st else acc
      | _ => acc)
    none

end Worker

namespace Worker

/-- One pulled Pub/Sub message as seen by the polling loop,
src/worker.py:1034-1077: empty body (`not raw_data`), a body that fails
UTF-8 decoding or JSON parsing, or a successfully decoded dict. -/
inductive RawMessage where
  | emptyBody
  | undecodable
  | wellFormed (m : MessageData)
deriving DecidableEq

/-- What the polling loop does with one pulled message: acknowledge it,
reset its ack deadline to zero (`modify_ack_deadline(...,
ack_deadline_seconds=0)`, the negative acknowledgment that makes the
message immediately available for redelivery), or submit it to the job
thread pool. -/
inductive PullAction where
  | ack
  | nackDeadlineZero
  | submit (m : MessageData)
deriving DecidableEq

/-- Per-message handling inside `start_ultra_fast_polling_worker`,
src/worker.py:1034-1087: an empty body gets `modify_ack_deadline(0)`
(lines 1038-1044); a decode/parse failure gets `modify_ack_deadline(0)`
(lines 1068-1077); a decoded message is submitted to the thread pool
without waiting for completion (lines 1079-1085). -/
def handle_pulled_message : RawMessage → PullAction
  | .emptyBody => .nackDeadlineZero
  | .undecodable => .nackDeadlineZero
  | .wellFormed m => .submit m

end Worker

namespace TMClient

/-- Tests that `pat` is a prefix of `s` (over character lists). -/
def prefixAt : List Char → List Char → Bool
  | [], _ => true
  | _ :: _, [] => false
  | a :: ps, b :: ss => a == b && prefixAt ps ss

/-- Tests that `s` contains `pat` as a contiguous substring (Python `pat in s`),
over character lists. -/
def strContains : List Char → List Char → Bool
  | [], pat => pat.isEmpty
  | a :: rest, pat => prefixAt pat (a :: rest) || strContains rest pat

/-- Model of `str(error).lower()` as a character list (`str.lower`; the keyword
constants compared against it are pure ASCII, for which `Char.toLower`
agrees with Python). -/
def lowerChars (s : String) : List Char :=
  s.toList.map Char.toLower

/-- The retryable error signals of `_is_retryable_error`,
src/text_model_client.py:294-308. -/
def retryable_conditions : List String :=
  ["timeout", "connection", "rate limit", "429", "500", "502", "503",
   "504", "service unavailable", "server error", "network", "dns", "ssl"]

/-- The non-retryable error signals of `_is_retryable_error`,
src/text_model_client.py:316-325. -/
def non_retryable_conditions : List String :=
  ["400", "401", "403", "404", "invalid model response",
   "failed to parse", "no choices returned", "no message content"]

/-- Model of `TextModelClient._is_retryable_error`, src/text_model_client.py:281-333:
lower-case the error text, return `true` if any retryable signal occurs in
it, otherwise `false` if any non-retryable signal occurs, otherwise default
to `true` (unknown errors are retried). -/
def is_retryable_error (error : String) : Bool :=
  let error_str := lowerChars error
  if retryable_conditions.any (fun c => strContains error_str c.toList) then
    true
  else if non_retryable_conditions.any
      (fun c => strContains error_str c.toList) then
    false
  else
    true

/-- Outcome of one `_make_model_request` attempt: a response with the given
content, or a raised exception with the given message. -/
inductive AttemptResult where
  | ok (content : String)
  | err (e : String)
deriving DecidableEq

/-- The retry loop of `TextModelClient.call_model`,
src/text_model_client.py:107-135, entered at attempt index `attempt`
(0-based) with `remaining` loop iterations left (`for attempt in
range(max_retries + 1)`; entry passes `remaining = max_retries + 1`, and
the two stay linked by `attempt + remaining = max_retries + 1`).  `f`
gives the outcome each attempt would have.  Returns the total number of
attempts performed and the final outcome (content, or the raised error
message).  Mirrors the source: success returns at once; a non-retryable
error is re-raised at once (lines 116-118); on the last allowed attempt
(`attempt >= max_retries`) the loop breaks and raises the aggregate
message (lines 121-135); otherwise it sleeps and retries.  The
`remaining = 0` case is the for-loop running out, unreachable from entry
because the break at `attempt >= max_retries` fires first. -/
def call_model_go (max_retries : ℕ) (f : ℕ → AttemptResult) :
    ℕ → ℕ → ℕ × Except String String
  | attempt, 0 =>
      (attempt,
       .error ("Model call failed after " ++ toString (max_retries + 1)
         ++ " attempts. Last error: None"))
  | attempt, remaining + 1 =>
      match f attempt with
      | .ok content => (attempt + 1, .ok content)
      | .err e =>
          if is_retryable_error e = false then
            (attempt + 1, .error e)
          else if max_retries ≤ attempt then
            (attempt + 1,
             .error ("Model call failed after " ++ toString (max_retries + 1)
               ++ " attempts. Last error: " ++ e))
          else
            call_model_go max_retries f (attempt + 1) remaining

/-- Model of `TextModelClient.call_model`: the retry loop started at attempt 0
(`for attempt in range(self.max_retries + 1)`, src/text_model_client.py:109). -/
def call_model (max_retries : ℕ) (f : ℕ → AttemptResult) :
    ℕ × Except String String :=
  call_model_go max_retries f 0 (max_retries + 1)

/-- Model of `TextModelClient._calculate_retry_delay`,
src/text_model_client.py:335-355, with the drawn jitter factor made an
explicit parameter (the source draws it from `random.uniform(0.5, 1.5)`):
`delay = retry_delay * 2^attempt`, then `delay *= jitter`, then capped at
`max_retry_delay`.  Python float arithmetic is modelled exactly over `ℚ`. -/
def calculate_retry_delay (retry_delay max_retry_delay : ℚ)
    (attempt : ℕ) (jitter : ℚ) : ℚ :=
  let delay := retry_delay * 2 ^ attempt
  let delay := delay * jitter
  min delay max_retry_delay

end TMClient

namespace PDFProc

/-- A JSON object payload, restricted to its string-valued fields — the
only fields the merge logic, the fallback payload and the extraction
wrapper inspect (`status_kepatuhan_format` comparison and re-serialization
of fixed string-valued dicts). -/
abbrev Payload := List (String × String)

/-- Python `dict.get(key)`: value of the first binding of `key`, if any. -/
def Payload.get (p : Payload) (k : String) : Option String :=
  (p.find? (fun kv => kv.1 == k)).map (fun kv => kv.2)

/-- A model-output text together with the ordered list of JSON object
payloads the extraction pipeline of src/pdf_processor.py (the fenced
"```json ... ```" regex, then the brace-matching regex, then `json.loads`
on each match, src/pdf_processor.py:1019-1028 and 1047-1053) extracts from
it.  The extraction is a deterministic function of the text, so the list is
carried alongside the raw string rather than recomputed by a string
scanner. -/
structure ChunkText where
  raw : String
  payloads : List Payload
deriving DecidableEq

/-- Model of `json.dumps(p, indent=2, ensure_ascii=False)` for a flat string-valued
dict: braces on their own lines, two-space indent, `"key": "value"` pairs
joined by commas. -/
def dumps (p : Payload) : String :=
  "\x7b\n"
    ++ String.intercalate ",\n"
        (p.map (fun kv => "  \"" ++ kv.1 ++ "\": \"" ++ kv.2 ++ "\""))
    ++ "\n\x7d"

/-- A fenced JSON block `"```json\n" + json.dumps(data, indent=2,
ensure_ascii=False) + "\n```"` as built at src/pdf_processor.py:1011, 1036
and 1039.  Its extractable payloads are exactly `[d]`: the fenced regex
matches the dumped object and `json.loads` returns the dict back. -/
def jsonBlockText (d : Payload) : ChunkText :=
  { raw := "```json\n" ++ dumps d ++ "\n```", payloads := [d] }

/-- The fixed fallback dict of `get_fallback_response`,
src/pdf_processor.py:1005-1009. -/
def fallbackData : Payload :=
  [("status_kepatuhan_format", "Bad"),
   ("alasan_validasi",
    "Dokumen tidak dapat diproses - optimasi ULTRA-FAST aktif"),
   ("analisa_kualitas_dokumen",
    "Kualitas tidak memadai untuk ekstraksi otomatis")]

/-- Model of `UltraFastPDFProcessor.get_fallback_response`,
src/pdf_processor.py:1003-1011: the fallback dict rendered as a fenced
JSON block (the `doc_type` argument is unused by the source body). -/
def get_fallback_response (doc_type : String) : ChunkText :=
  jsonBlockText fallbackData

/-- Model of `data.get("status_kepatuhan_format") == "Good"`,
src/pdf_processor.py:1035. -/
def isGood (d : Payload) : Bool :=
  d.get "status_kepatuhan_format" == some "Good"

/-- Model of `all_data` in `merge_chunk_results`: every extractable payload of every
result, in list order (src/pdf_processor.py:1016-1028). -/
def allData (results : List ChunkText) : List Payload :=
  (results.map ChunkText.payloads).flatten

/-- Model of `UltraFastPDFProcessor.merge_chunk_results`,
src/pdf_processor.py:1013-1042: extract every payload from every result in
list order (`all_data`); if none is extractable return the first raw result
(or `None` for an empty list); otherwise return the first payload whose
`status_kepatuhan_format` is `"Good"` as a fenced JSON block, or, when no
payload qualifies, the first extracted payload as a fenced JSON block.
The `doc_type` argument is unused by the source body. -/
def merge_chunk_results (results : List ChunkText) (doc_type : String) :
    Option ChunkText :=
  match allData results with
  | [] =>
      match results with
      | [] => none
      | r :: _ => some r
  | d :: rest =>
      match (d :: rest).find? isGood with
      | some data => some (jsonBlockText data)
      | none => some (jsonBlockText d)

/-- Model of `UltraFastPDFProcessor.extract_json_only`, src/pdf_processor.py:1044-1057:
the first extractable payload of the text, or the wrapper dict
`{"result": text}` when nothing is extractable (or parsing raises). -/
def extract_json_only (t : ChunkText) : Payload :=
  match t.payloads with
  | p :: _ => p
  | [] => [("result", t.raw)]

/-- Outcome of one chunk future at collection time,
src/pdf_processor.py:523-535: `future.result()` returned (the processor's
`Optional[str]`, here an optional text), or raised. -/
inductive ChunkOutcome where
  | ret (r : Option ChunkText)
  | raise
deriving DecidableEq

/-- The success test of the collection loop, src/pdf_processor.py:527:
`if result and result.strip()` — a returned, non-empty,
non-whitespace-only text counts as a chunk success. -/
def chunkSuccess : ChunkOutcome → Option ChunkText
  | .ret (some t) => if t.raw.trim != "" then some t else none
  | _ => none

/-- Final value of the modelled part of `ultra_fast_process_pdf`. -/
inductive PdfResult where
  | errorDict (msg : String)
  | json (p : Payload)
deriving DecidableEq

/-- Model of `UltraFastPDFProcessor.ultra_fast_process_pdf`,
src/pdf_processor.py:483-571, from validation onward.  `fileValid` models
`validate_file`, `converted` models `ultra_fast_convert_pdf` returning a
truthy dict, and `outcomes` are the chunk futures' outcomes in completion
order (`as_completed`).  Successful results are collected in completion
order (lines 523-535); with zero successes the fallback response is
extracted and returned (lines 539-543); with one success that result is
extracted; with several, `merge_chunk_results` runs and a falsy merge falls
back to the first collected result (lines 545-552).  The source's outer
`except` also returns the extracted fallback, so the function is total. -/
def ultra_fast_process_pdf (fileValid converted : Bool)
    (outcomes : List ChunkOutcome) (doc_type : String) : PdfResult :=
  if !fileValid then .errorDict "PDF validation failed"
  else if !converted then .errorDict "PDF conversion failed"
  else
    let results := outcomes.filterMap chunkSuccess
    match results with
    | [] => .json (extract_json_only (get_fallback_response doc_type))
    | [r] => .json (extract_json_only r)
    | r :: rs =>
        let final := (merge_chunk_results (r :: rs) doc_type).getD r
        .json (extract_json_only final)

end PDFProc

namespace PDFProc

/-- Outcome one iteration of `ultra_fast_process_chunk`'s loop body would
observe, src/pdf_processor.py:873-925: the `ultra_fast_call_api` call
returned (its `Optional[str]`), or the body raised an exception. -/
inductive ChunkAttempt where
  | ret (r : Option String)
  | raise
deriving DecidableEq

/-- Value returned by `ultra_fast_process_chunk`: a model content string,
or the fallback response text. -/
inductive ChunkRet where
  | content (s : String)
  | fallbackResp
deriving DecidableEq

/-- The failure test for one loop iteration: everything except a returned,
non-whitespace-only content string (`if result and result.strip()`,
src/pdf_processor.py:909) counts as a failed attempt. -/
def isChunkFailure : ChunkAttempt → Bool
  | .ret (some s) => s.trim == ""
  | .ret none => true
  | .raise => true

/-- The retry loop of `UltraFastPDFProcessor.ultra_fast_process_chunk`,
src/pdf_processor.py:858-927: `for attempt in range(max_retries)`, entered
at index `attempt` with `remaining` iterations left (entry passes
`remaining = max_retries`; the two stay linked by
`attempt + remaining = max_retries`).  An empty chunk returns the fallback
before the API call (line 891-892).  A truthy, non-whitespace result is
returned at once (lines 909-910); otherwise — empty result or exception —
the loop sleeps and retries while `attempt < max_retries - 1`, and returns
the fallback response on the final iteration (lines 911-925).  The
`remaining = 0` case is the loop running out (line 927, also the fallback).
Returns the number of API attempts performed and the result.  Note: this
loop performs no error classification and runs `max_retries` iterations,
not `max_retries + 1`. -/
def ultra_fast_process_chunk_go (max_retries : ℕ) (api : ℕ → ChunkAttempt)
    (chunkEmpty : Bool) : ℕ → ℕ → ℕ × ChunkRet
  | attempt, 0 => (attempt, .fallbackResp)
  | attempt, remaining + 1 =>
      if chunkEmpty then (attempt, .fallbackResp)
      else
        match api attempt with
        | .ret (some s) =>
            if s.trim != "" then (attempt + 1, .content s)
            else if attempt < max_retries - 1 then
              ultra_fast_process_chunk_go max_retries api chunkEmpty
                (attempt + 1) remaining
            else (attempt + 1, .fallbackResp)
        | .ret none =>
            if attempt < max_retries - 1 then
              ultra_fast_process_chunk_go max_retries api chunkEmpty
                (attempt + 1) remaining
            else (attempt + 1, .fallbackResp)
        | .raise =>
            if attempt < max_retries - 1 then
              ultra_fast_process_chunk_go max_retries api chunkEmpty
                (attempt + 1) remaining
            else (attempt + 1, .fallbackResp)

/-- Model of `UltraFastPDFProcessor.ultra_fast_process_chunk`: the retry loop
started at attempt 0 with `max_retries` iterations
(src/pdf_processor.py:873). -/
def ultra_fast_process_chunk (max_retries : ℕ) (api : ℕ → ChunkAttempt)
    (chunkEmpty : Bool) : ℕ × ChunkRet :=
  ultra_fast_process_chunk_go max_retries api chunkEmpty 0 max_retries

/-- Primitive events of one `ultra_fast_wait` invocation, in program
order: entering the `with self.rate_lock:` block, `time.sleep(w)`,
`self.last_request_time = t`, and leaving the `with` block. -/
inductive RLEvent where
  | acquire
  | sleep (w : ℚ)
  | setLast (t : ℚ)
  | release
deriving DecidableEq

/-- Model of `UltraFastPDFProcessor.ultra_fast_wait`, src/pdf_processor.py:822-838,
as the sequence of events it performs given the shared state
`last_request_time` and the current clock `now`.  The entire body — the
elapsed-time read, the conditional sleep, and the timestamp write — sits
inside the `with self.rate_lock:` block, and the timestamp written is
`now`, captured at lock entry (line 827), not the time after the sleep. -/
def ultra_fast_wait (last_request_time now min_delay_between_requests
    safety_margin : ℚ) : List RLEvent :=
  [RLEvent.acquire]
    ++ (if 0 < last_request_time then
          (let time_since_last := now - last_request_time
           let required_wait := min_delay_between_requests + safety_margin
           if time_since_last < required_wait then
             [RLEvent.sleep (required_wait - time_since_last)]
           else [])
        else [])
    ++ [RLEvent.setLast now, RLEvent.release]

/-- Returns `true` when some `sleep` event of the trace happens while the mutex is
held (strictly between an `acquire` and the next `release`). -/
def sleepWhileLocked (tr : List RLEvent) : Bool :=
  (tr.foldl
    (fun st e =>
      match e with
      | .acquire => (true, st.2)
      | .release => (false, st.2)
      | .sleep _ => (st.1, st.2 || st.1)
      | .setLast _ => st)
    (false, false)).2

end PDFProc

namespace Worker

theorem mem_dispatchAndFinish_processing (j t : String)
    (o : ProcessingOutcome) :
    Action.writeStatus j "processing" ∈ dispatchAndFinish j t o := by
  simp [dispatchAndFinish]

theorem mem_dispatchAndFinish_process (j t : String)
    (o : ProcessingOutcome) :
    Action.process t j ∈ dispatchAndFinish j t o := by
  simp [dispatchAndFinish]

/-- Exhaustive shape analysis of the dispatcher: every run either only
acknowledges, marks the job failed at validation and acknowledges, or
reaches the full processing tail. -/
theorem process_single_message_shapes (m : MessageData)
    (lookup : StatusLookup) (outcome : ProcessingOutcome) :
    process_single_message m lookup outcome = [Action.ack]
    ∨ process_single_message m lookup outcome
        = [Action.writeStatus (jobIdOf m) "failed", Action.ack]
    ∨ process_single_message m lookup outcome
        = dispatchAndFinish (jobIdOf m) (jobTypeOf m) outcome := by
  unfold process_single_message
  by_cases h1 : isResultMessage m = true
  · simp [h1]
  · by_cases h2 : requiredFieldsPresent m = true
    · cases lookup with
      | found st =>
          by_cases h3 : (st == "completed" || st == "failed") = true
          · simp [h1, h2, h3]
          · by_cases h4 : (st == "processing") = true <;>
              simp [h1, h2, h3, h4]
      | absent => simp [h1, h2]
      | raised => simp [h1, h2]
    · by_cases h3 : (jobTypeOf m != "text_analysis"
          && m.status.isSome && m.result.isSome) = true
      · simp [h1, h2, h3]
      · by_cases h4 : (jobIdOf m != "unknown") = true <;>
          simp [h1, h2, h3, h4]

theorem eq_of_mem_dispatch_processing {j j' t : String}
    {o : ProcessingOutcome}
    (h : Action.writeStatus j "processing" ∈ dispatchAndFinish j' t o) :
    j = j' := by
  cases o with
  | ret success result =>
      cases success with
      | false => simp_all [dispatchAndFinish]
      | true =>
          rcases result with _ | s
          · simp_all [dispatchAndFinish, truthy]
          · by_cases hs : s = "" <;> simp_all [dispatchAndFinish, truthy]
  | retNone => simp_all [dispatchAndFinish]
  | raise => simp_all [dispatchAndFinish]

/-- C1: Every message the dispatcher accepts for processing (it writes
status `processing`) has a terminal status written before the dispatcher
returns: `completed` exactly when the processor returned success with a
non-empty result, `failed` in every other case (empty result, error
result, or exception); so no job's last written status is `processing`. -/
theorem processing_reaches_terminal_status (m : MessageData)
    (lookup : StatusLookup) (outcome : ProcessingOutcome) (j : String)
    (h : Action.writeStatus j "processing"
          ∈ process_single_message m lookup outcome) :
    (lastStatusOf (process_single_message m lookup outcome) j
        = some "completed"
      ∨ lastStatusOf (process_single_message m lookup outcome) j
        = some "failed")
    ∧ (lastStatusOf (process_single_message m lookup outcome) j
        = some "completed"
      ↔ ∃ r, outcome = ProcessingOutcome.ret true (some r) ∧ r ≠ "") := by
  rcases process_single_message_shapes m lookup outcome with hc | hc | hc <;>
    rw [hc] at h ⊢
  · simp at h
  · simp at h
  · have hj : j = jobIdOf m := eq_of_mem_dispatch_processing h
    subst hj
    cases outcome with
    | ret success result =>
        cases success with
        | false => simp [dispatchAndFinish, lastStatusOf, List.foldl]
        | true =>
            rcases result with _ | s
            · simp [dispatchAndFinish, lastStatusOf, truthy, List.foldl]
            · by_cases hs : s = ""
              · subst hs
                simp [dispatchAndFinish, lastStatusOf, truthy, List.foldl]
              · simp [dispatchAndFinish, lastStatusOf, truthy, hs,
                  List.foldl]
    | retNone => simp [dispatchAndFinish, lastStatusOf, List.foldl]
    | raise => simp [dispatchAndFinish, lastStatusOf, List.foldl]

/-- A well-formed document-processing message used as concrete input. -/
def msgDoc : MessageData :=
  { job_id := some "job-1", job_type := none, document_type := some "ktp",
    gcs_path := some "gs://bucket/f.pdf", filename := some "f.pdf",
    analysis_type := none, entity_type := none, name := none,
    status := none, result := none, processed_at := none }

theorem processing_reaches_terminal_status_witness :
    (lastStatusOf (process_single_message msgDoc StatusLookup.absent
          (ProcessingOutcome.ret true (some "ok"))) "job-1"
        = some "completed"
      ∨ lastStatusOf (process_single_message msgDoc StatusLookup.absent
          (ProcessingOutcome.ret true (some "ok"))) "job-1"
        = some "failed")
    ∧ (lastStatusOf (process_single_message msgDoc StatusLookup.absent
          (ProcessingOutcome.ret true (some "ok"))) "job-1"
        = some "completed"
      ↔ ∃ r, ProcessingOutcome.ret true (some "ok")
              = ProcessingOutcome.ret true (some r) ∧ r ≠ "") :=
  processing_reaches_terminal_status msgDoc StatusLookup.absent
    (ProcessingOutcome.ret true (some "ok")) "job-1" (by decide)

/-- C2: A decoded message carrying `status`, `result` and
`processed_at` and lacking `document_type` is classified as an echoed
result: the dispatcher only acknowledges it — no status write, no
processing call. -/
theorem echo_message_acked_without_mutation (m : MessageData)
    (lookup : StatusLookup) (outcome : ProcessingOutcome)
    (hs : m.status.isSome = true) (hr : m.result.isSome = true)
    (hp : m.processed_at.isSome = true) (hd : m.document_type = none) :
    process_single_message m lookup outcome = [Action.ack]
    ∧ (∀ j st, Action.writeStatus j st
        ∉ process_single_message m lookup outcome)
    ∧ (∀ t j, Action.process t j
        ∉ process_single_message m lookup outcome) := by
  have hm : isResultMessage m = true := by
    simp [isResultMessage, hs, hr, hp, hd]
  refine ⟨?_, ?_, ?_⟩ <;> simp [process_single_message, hm]

/-- An echoed result message used as concrete input. -/
def msgEcho : MessageData :=
  { job_id := some "job-2", job_type := none, document_type := none,
    gcs_path := none, filename := none, analysis_type := none,
    entity_type := none, name := none, status := some "completed",
    result := some "r", processed_at := some "2024-01-01T00:00:00Z" }

theorem echo_message_acked_without_mutation_witness :
    process_single_message msgEcho StatusLookup.absent
        ProcessingOutcome.raise = [Action.ack]
    ∧ (∀ j st, Action.writeStatus j st
        ∉ process_single_message msgEcho StatusLookup.absent
            ProcessingOutcome.raise)
    ∧ (∀ t j, Action.process t j
        ∉ process_single_message msgEcho StatusLookup.absent
            ProcessingOutcome.raise) :=
  echo_message_acked_without_mutation msgEcho StatusLookup.absent
    ProcessingOutcome.raise (by decide) (by decide) (by decide) (by decide)

/-- C3: A valid job message whose `job_id` is already `completed`,
`failed` or `processing` at lookup time is acknowledged and dropped with
no status write and no processing; a raised lookup proceeds to
processing anyway. -/
theorem duplicate_job_acked_and_dropped (m : MessageData)
    (outcome : ProcessingOutcome)
    (hecho : isResultMessage m = false)
    (hvalid : requiredFieldsPresent m = true) :
    (∀ st, st = "completed" ∨ st = "failed" ∨ st = "processing" →
        process_single_message m (StatusLookup.found st) outcome
          = [Action.ack])
    ∧ Action.writeStatus (jobIdOf m) "processing"
        ∈ process_single_message m StatusLookup.raised outcome
    ∧ Action.process (jobTypeOf m) (jobIdOf m)
        ∈ process_single_message m StatusLookup.raised outcome := by
  refine ⟨?_, ?_, ?_⟩
  · rintro st (rfl | rfl | rfl) <;>
      simp [process_single_message, hecho, hvalid]
  · simp [process_single_message, hecho, hvalid,
      mem_dispatchAndFinish_processing]
  · simp [process_single_message, hecho, hvalid,
      mem_dispatchAndFinish_process]

theorem duplicate_job_acked_and_dropped_witness :
    (∀ st, st = "completed" ∨ st = "failed" ∨ st = "processing" →
        process_single_message msgDoc (StatusLookup.found st)
          ProcessingOutcome.raise = [Action.ack])
    ∧ Action.writeStatus (jobIdOf msgDoc) "processing"
        ∈ process_single_message msgDoc StatusLookup.raised
            ProcessingOutcome.raise
    ∧ Action.process (jobTypeOf msgDoc) (jobIdOf msgDoc)
        ∈ process_single_message msgDoc StatusLookup.raised
            ProcessingOutcome.raise :=
  duplicate_job_acked_and_dropped msgDoc ProcessingOutcome.raise
    (by decide) (by decide)

end Worker

namespace Worker

/-- C5 (counterexample): The claim says the poll loop immediately
ACKNOWLEDGES a message whose body is empty or fails to decode; the code
instead calls `modify_ack_deadline(..., ack_deadline_seconds=0)`
(src/worker.py:1038-1044 and 1072-1077), the negative acknowledgment that
makes the message immediately available for redelivery — a different
subscriber operation than `acknowledge`. -/
theorem malformed_message_ack_counterexample :
    handle_pulled_message RawMessage.emptyBody = PullAction.nackDeadlineZero
    ∧ handle_pulled_message RawMessage.undecodable
        = PullAction.nackDeadlineZero
    ∧ PullAction.nackDeadlineZero ≠ PullAction.ack :=
  ⟨rfl, rfl, by decide⟩

/-- C5 (amended): The poll loop resets the ack deadline to zero
(negative acknowledgment, eligible for immediate redelivery) exactly for
the empty-body and undecodable messages, submits exactly the well-formed
decoded messages for processing, and never acknowledges a message
itself. -/
theorem malformed_message_nacked (r : RawMessage) :
    (handle_pulled_message r = PullAction.nackDeadlineZero
      ↔ (r = RawMessage.emptyBody ∨ r = RawMessage.undecodable))
    ∧ (∀ m, handle_pulled_message r = PullAction.submit m
      ↔ r = RawMessage.wellFormed m)
    ∧ handle_pulled_message r ≠ PullAction.ack := by
  cases r <;> simp [handle_pulled_message]

theorem malformed_message_nacked_witness :
    handle_pulled_message RawMessage.undecodable
      = PullAction.nackDeadlineZero :=
  ((malformed_message_nacked RawMessage.undecodable).1).mpr (Or.inr rfl)

end Worker

theorem call_model_go_all_retryable (max_retries : ℕ)
    (f : ℕ → TMClient.AttemptResult)
    (hf : ∀ i, ∃ e, f i = TMClient.AttemptResult.err e
            ∧ TMClient.is_retryable_error e = true) :
    ∀ remaining attempt, attempt + remaining = max_retries + 1 →
      0 < remaining →
      (TMClient.call_model_go max_retries f attempt remaining).1
        = max_retries + 1 := by
  intro remaining
  induction remaining with
  | zero => intro attempt h h0; omega
  | succ k ih =>
      intro attempt h h0
      obtain ⟨e, he, hr⟩ := hf attempt
      by_cases hle : max_retries ≤ attempt
      · have hstep : (TMClient.call_model_go max_retries f attempt
            (k + 1)).1 = attempt + 1 := by
          simp [TMClient.call_model_go, he, hr, hle]
        omega
      · have hstep : TMClient.call_model_go max_retries f attempt (k + 1)
            = TMClient.call_model_go max_retries f (attempt + 1) k := by
          simp [TMClient.call_model_go, he, hr, hle]
        rw [hstep]
        exact ih (attempt + 1) (by omega) (by omega)

theorem chunk_go_all_fail (max_retries : ℕ)
    (api : ℕ → PDFProc.ChunkAttempt)
    (h : ∀ i, PDFProc.isChunkFailure (api i) = true) :
    ∀ remaining attempt, attempt + remaining = max_retries →
      (PDFProc.ultra_fast_process_chunk_go max_retries api false attempt
          remaining).1 = max_retries := by
  intro remaining
  induction remaining with
  | zero =>
      intro attempt ha
      simp [PDFProc.ultra_fast_process_chunk_go]
      omega
  | succ k ih =>
      intro attempt ha
      have hfail := h attempt
      by_cases hlt : attempt < max_retries - 1
      · have hstep : PDFProc.ultra_fast_process_chunk_go max_retries api
            false attempt (k + 1)
            = PDFProc.ultra_fast_process_chunk_go max_retries api false
                (attempt + 1) k := by
          rcases hapi : api attempt with r | _
          · rcases r with _ | s
            · simp [PDFProc.ultra_fast_process_chunk_go, hapi, hlt]
            · rw [hapi] at hfail
              simp only [PDFProc.isChunkFailure, beq_iff_eq] at hfail
              simp [PDFProc.ultra_fast_process_chunk_go, hapi, hfail, hlt]
          · simp [PDFProc.ultra_fast_process_chunk_go, hapi, hlt]
        rw [hstep]
        exact ih (attempt + 1) (by omega)
      · have hstep : (PDFProc.ultra_fast_process_chunk_go max_retries api
            false attempt (k + 1)).1 = attempt + 1 := by
          rcases hapi : api attempt with r | _
          · rcases r with _ | s
            · simp [PDFProc.ultra_fast_process_chunk_go, hapi, hlt]
            · rw [hapi] at hfail
              simp only [PDFProc.isChunkFailure, beq_iff_eq] at hfail
              simp [PDFProc.ultra_fast_process_chunk_go, hapi, hfail, hlt]
          · simp [PDFProc.ultra_fast_process_chunk_go, hapi, hlt]
        omega

/-- C4 (counterexample): With the repository default
`MAX_RETRIES = 3` (src/pdf_processor.py:867) and every API call failing,
`ultra_fast_process_chunk` performs exactly 3 attempts — `max_retries`,
not `max_retries + 1` — before returning the fallback response: its loop
is `for attempt in range(max_retries)` (src/pdf_processor.py:873). -/
theorem chunk_retry_count_counterexample :
    (PDFProc.ultra_fast_process_chunk 3
        (fun _ => PDFProc.ChunkAttempt.ret none) false).1 = 3
    ∧ (PDFProc.ultra_fast_process_chunk 3
        (fun _ => PDFProc.ChunkAttempt.ret none) false).1 ≠ 3 + 1 := by
  decide

/-- C4 (amended): `TextModelClient.call_model` attempts a call whose
failures are all classified retryable exactly `max_retries + 1` times and
a call whose first failure is classified fatal exactly once; the
unclassified retry loop of `UltraFastPDFProcessor.ultra_fast_process_chunk`
attempts the API call exactly `max_retries` times (not `max_retries + 1`)
before returning the fallback response when every attempt fails. -/
theorem retry_attempt_counts (max_retries : ℕ)
    (f g : ℕ → TMClient.AttemptResult) (api : ℕ → PDFProc.ChunkAttempt)
    (e : String)
    (hf : ∀ i, ∃ d, f i = TMClient.AttemptResult.err d
            ∧ TMClient.is_retryable_error d = true)
    (hg : g 0 = TMClient.AttemptResult.err e)
    (he : TMClient.is_retryable_error e = false)
    (hapi : ∀ i, PDFProc.isChunkFailure (api i) = true) :
    (TMClient.call_model max_retries f).1 = max_retries + 1
    ∧ (TMClient.call_model max_retries g).1 = 1
    ∧ (PDFProc.ultra_fast_process_chunk max_retries api false).1
        = max_retries := by
  refine ⟨?_, ?_, ?_⟩
  · exact call_model_go_all_retryable max_retries f hf (max_retries + 1) 0
      (by omega) (by omega)
  · unfold TMClient.call_model
    simp [TMClient.call_model_go, hg, he]
  · exact chunk_go_all_fail max_retries api hapi max_retries 0 (by omega)

theorem retry_attempt_counts_witness :
    (TMClient.call_model 2
        (fun _ => TMClient.AttemptResult.err "Connection timeout")).1 = 2 + 1
    ∧ (TMClient.call_model 2
        (fun _ => TMClient.AttemptResult.err
          "Model API returned status 404: not found")).1 = 1
    ∧ (PDFProc.ultra_fast_process_chunk 2
        (fun _ => PDFProc.ChunkAttempt.raise) false).1 = 2 :=
  retry_attempt_counts 2 _ _ _ "Model API returned status 404: not found"
    (fun _ => ⟨"Connection timeout", rfl, by decide⟩)
    rfl (by decide) (fun _ => rfl)

namespace PDFProc

theorem find?_isGood_of_unique {l : List Payload} {g : Payload}
    (hmem : g ∈ l) (hg : isGood g = true)
    (huniq : ∀ d ∈ l, isGood d = true → d = g) :
    l.find? isGood = some g := by
  induction l with
  | nil => cases hmem
  | cons a t ih =>
      by_cases ha : isGood a = true
      · have hag : a = g := huniq a (List.mem_cons_self a t) ha
        subst hag
        simp [List.find?, ha]
      · have ha' : isGood a = false := by
          cases hh : isGood a
          · rfl
          · exact absurd hh ha
        have hat : g ∈ t := by
          rcases List.mem_cons.mp hmem with rfl | hmm2
          · exact absurd hg ha
          · exact hmm2
        rw [List.find?]
        rw [ha']
        exact ih hat (fun d hd hgd => huniq d (List.mem_cons_of_mem a hd) hgd)

/-- The unique-`Good`-payload case of the merge, for one input list. -/
theorem merge_eq_of_unique_good (rs : List ChunkText) (dt : String)
    (g : Payload) (hmem : g ∈ allData rs) (hg : isGood g = true)
    (huniq : ∀ d ∈ allData rs, isGood d = true → d = g) :
    merge_chunk_results rs dt = some (jsonBlockText g) := by
  rcases hAD : allData rs with _ | ⟨d, rest⟩
  · rw [hAD] at hmem; cases hmem
  · rw [hAD] at hmem huniq
    simp only [merge_chunk_results, hAD]
    rw [find?_isGood_of_unique hmem hg huniq]

/-- C6: Merge determinism: with exactly one extractable payload
carrying the `"Good"` marker, `merge_chunk_results` returns that payload
(as a fenced JSON block) for the input list and for every permutation of
it; with no `"Good"` payload, the first extractable payload (in list
order) is returned; with no extractable payload at all, the first raw
result is returned verbatim. -/
theorem merge_good_unique_deterministic (rs rs' : List ChunkText)
    (dt dt' : String) (g : Payload) (hperm : rs.Perm rs') :
    ((g ∈ allData rs ∧ isGood g = true
        ∧ ∀ d ∈ allData rs, isGood d = true → d = g) →
      merge_chunk_results rs dt = some (jsonBlockText g)
      ∧ merge_chunk_results rs' dt' = some (jsonBlockText g))
    ∧ ((∀ d ∈ allData rs, isGood d = false) →
        ∀ d l, allData rs = d :: l →
          merge_chunk_results rs dt = some (jsonBlockText d))
    ∧ (allData rs = [] → ∀ r l, rs = r :: l →
        merge_chunk_results rs dt = some r) := by
  have hpermAD : (allData rs).Perm (allData rs') :=
    (hperm.map ChunkText.payloads).flatten
  refine ⟨?_, ?_, ?_⟩
  · rintro ⟨hmem, hg, huniq⟩
    refine ⟨merge_eq_of_unique_good rs dt g hmem hg huniq, ?_⟩
    refine merge_eq_of_unique_good rs' dt' g (hpermAD.mem_iff.mp hmem) hg ?_
    intro d hd hgd
    exact huniq d (hpermAD.mem_iff.mpr hd) hgd
  · intro hall d l hADeq
    have hfind : (d :: l).find? isGood = none := by
      rw [List.find?_eq_none]
      intro x hx
      rw [hADeq] at hall
      simp [hall x hx]
    simp only [merge_chunk_results, hADeq, hfind]
  · intro hAD r l hrs
    subst hrs
    simp only [merge_chunk_results, hAD]

/-- A chunk result whose extractable payload is not marked `Good`. -/
def ctBad : ChunkText :=
  { raw := "hasil analisis:",
    payloads := [[("status_kepatuhan_format", "Bad"),
                  ("alasan_validasi", "blur")]] }

/-- A chunk result whose extractable payload is marked `Good`. -/
def ctGood : ChunkText :=
  { raw := "hasil analisis:",
    payloads := [[("status_kepatuhan_format", "Good"),
                  ("nama", "BUDI")]] }

theorem merge_good_unique_deterministic_witness :
    merge_chunk_results [ctBad, ctGood] "ktp"
      = some (jsonBlockText [("status_kepatuhan_format", "Good"),
          ("nama", "BUDI")])
    ∧ merge_chunk_results [ctGood, ctBad] "ktp"
      = some (jsonBlockText [("status_kepatuhan_format", "Good"),
          ("nama", "BUDI")]) :=
  (merge_good_unique_deterministic [ctBad, ctGood] [ctGood, ctBad]
      "ktp" "ktp"
      [("status_kepatuhan_format", "Good"), ("nama", "BUDI")]
      (by decide)).1 ⟨by decide, by decide, by decide⟩

/-- C7: When every chunk fails (no chunk outcome yields a non-empty
result), `ultra_fast_process_pdf` returns the fixed fallback payload —
whose status field marks the document as unprocessable (`"Bad"`) — and,
being a total function, does not raise. -/
theorem all_chunks_fail_fallback (outcomes : List ChunkOutcome)
    (dt : String) (h : ∀ o ∈ outcomes, chunkSuccess o = none) :
    ultra_fast_process_pdf true true outcomes dt
      = PdfResult.json fallbackData
    ∧ Payload.get fallbackData "status_kepatuhan_format" = some "Bad" := by
  have hfm : outcomes.filterMap chunkSuccess = [] := by
    rw [List.filterMap_eq_nil_iff]
    exact h
  refine ⟨?_, by decide⟩
  simp [ultra_fast_process_pdf, hfm, extract_json_only,
    get_fallback_response, jsonBlockText]

theorem all_chunks_fail_fallback_witness :
    ultra_fast_process_pdf true true
        [ChunkOutcome.raise, ChunkOutcome.ret none, ChunkOutcome.raise]
        "ktp"
      = PdfResult.json fallbackData
    ∧ Payload.get fallbackData "status_kepatuhan_format" = some "Bad" :=
  all_chunks_fail_fallback
    [ChunkOutcome.raise, ChunkOutcome.ret none, ChunkOutcome.raise] "ktp"
    (by decide)

/-- C9 (counterexample): With `last_request_time = 1`, `now = 2`,
`min_delay = 30`, `safety_margin = 2`, the caller owes `31` seconds and the
trace is acquire → sleep → write timestamp → release: the `time.sleep`
happens INSIDE the `with self.rate_lock:` block, so the mutex IS held
during the sleep, contrary to the claim. -/
theorem rate_limiter_sleeps_holding_lock :
    ultra_fast_wait 1 2 30 2
      = [RLEvent.acquire, RLEvent.sleep 31, RLEvent.setLast 2,
         RLEvent.release]
    ∧ sleepWhileLocked (ultra_fast_wait 1 2 30 2) = true := by
  constructor
  · norm_num [ultra_fast_wait]
  · norm_num [ultra_fast_wait, sleepWhileLocked, List.foldl]

/-- C9 (amended): The critical section of `ultra_fast_wait` covers the
whole operation: the lock is always released at the end (after the
timestamp write), the caller sleeps exactly its own deficit
`required_spacing − elapsed` — and only when one is owed (`last > 0` and
`elapsed < required`) — but it does so while holding the mutex, and the
timestamp written is the lock-entry time `now`. -/
theorem ultra_fast_wait_critical_section (last now md sm : ℚ) :
    (ultra_fast_wait last now md sm).getLast? = some RLEvent.release
    ∧ (sleepWhileLocked (ultra_fast_wait last now md sm) = true
        ↔ (0 < last ∧ now - last < md + sm))
    ∧ (∀ w, RLEvent.sleep w ∈ ultra_fast_wait last now md sm →
        w = (md + sm) - (now - last))
    ∧ RLEvent.setLast now ∈ ultra_fast_wait last now md sm := by
  by_cases h1 : 0 < last
  · by_cases h2 : now - last < md + sm <;>
      simp [ultra_fast_wait, sleepWhileLocked, List.foldl, h1, h2]
  · simp [ultra_fast_wait, sleepWhileLocked, List.foldl, h1]

theorem ultra_fast_wait_critical_section_witness :
    sleepWhileLocked (ultra_fast_wait 1 2 30 2) = true
    ∧ RLEvent.setLast 2 ∈ ultra_fast_wait 1 2 30 2 :=
  ⟨(ultra_fast_wait_critical_section 1 2 30 2).2.1.mpr
      ⟨by norm_num, by norm_num⟩,
   (ultra_fast_wait_critical_section 1 2 30 2).2.2.2⟩

end PDFProc

namespace TMClient

/-- C8: A retry wait equals
`min(base_delay * 2^attempt * jitter, max_retry_delay)` for the drawn
jitter factor in `[0.5, 1.5]`, and in particular never exceeds
`max_retry_delay`. -/
theorem retry_delay_formula (retry_delay max_retry_delay : ℚ)
    (attempt : ℕ) (jitter : ℚ)
    (h1 : 1 / 2 ≤ jitter) (h2 : jitter ≤ 3 / 2) :
    calculate_retry_delay retry_delay max_retry_delay attempt jitter
      = min (retry_delay * 2 ^ attempt * jitter) max_retry_delay
    ∧ calculate_retry_delay retry_delay max_retry_delay attempt jitter
      ≤ max_retry_delay :=
  ⟨rfl, min_le_right _ _⟩

theorem retry_delay_formula_witness :
    calculate_retry_delay 1 60 3 1 = min (1 * 2 ^ 3 * 1) 60
    ∧ calculate_retry_delay 1 60 3 1 ≤ 60 :=
  retry_delay_formula 1 60 3 1 (by norm_num) (by norm_num)

/-- C10: An error message containing none of the retryable keywords
and none of the non-retryable keywords is classified retryable: the
classifier defaults to `true` for unknown errors. -/
theorem unknown_error_retryable_default (e : String)
    (h1 : ∀ c ∈ retryable_conditions,
        strContains (lowerChars e) c.toList = false)
    (h2 : ∀ c ∈ non_retryable_conditions,
        strContains (lowerChars e) c.toList = false) :
    is_retryable_error e = true := by
  have ha : (retryable_conditions.any
      (fun c => strContains (lowerChars e) c.toList)) = false := by
    rw [List.any_eq_false]
    intro c hc hcontra
    have hx := h1 c hc
    rw [hcontra] at hx
    exact Bool.noConfusion hx
  have hb : (non_retryable_conditions.any
      (fun c => strContains (lowerChars e) c.toList)) = false := by
    rw [List.any_eq_false]
    intro c hc hcontra
    have hx := h2 c hc
    rw [hcontra] at hx
    exact Bool.noConfusion hx
  simp only [is_retryable_error]
  rw [ha, hb]
  simp

theorem unknown_error_retryable_default_witness :
    is_retryable_error "mysterious kaboom" = true :=
  unknown_error_retryable_default "mysterious kaboom"
    (by decide) (by decide)

end TMClient
